import Mathlib

/-!
# VideoTextureItem (Qt/qmlrhi): sync / render cycle and Vulkan render-target assembly

A shallow embedding of `src/Qt/qmlrhi/VideoTextureItem.cpp`.

* The node (`VideoTextureNode`) is a record of its C++ members; pointers and
  Vulkan handles are natural numbers, `0` being `nullptr` / `VK_NULL_HANDLE`.
* Everything outside the file (Qt window, renderer interface, graphics
  devices, the mdk player) is the environment: its answers during one call
  are the fields of `Host`, and every call made to it is appended to the
  `trace` of the `World`.  Objects created by the environment get fresh
  non-null handles from `World.nextHandle`.
* `qreal` values are dyadic rationals `mant / 2 ^ exp` (every finite IEEE
  double is one); arithmetic on them is exact.
* Preprocessor guards are the fields of `BuildConfig`.
-/

namespace VideoTexture

/-! ## qreal, QSize, QSizeF -/

/-- A `qreal`: the dyadic rational `mant / 2 ^ exp`. -/
structure QReal where
  mant : Int
  exp : Nat
deriving DecidableEq, Repr

namespace QReal

def ofInt (i : Int) : QReal := ⟨i, 0⟩

/-- The constant `0.5`. -/
def half : QReal := ⟨1, 1⟩

def mul (a b : QReal) : QReal := ⟨a.mant * b.mant, a.exp + b.exp⟩

def add (a b : QReal) : QReal :=
  ⟨a.mant * ((2 ^ b.exp : Nat) : Int) + b.mant * ((2 ^ a.exp : Nat) : Int), a.exp + b.exp⟩

def sub (a b : QReal) : QReal :=
  ⟨a.mant * ((2 ^ b.exp : Nat) : Int) - b.mant * ((2 ^ a.exp : Nat) : Int), a.exp + b.exp⟩

/-- Comparison `a <= b`. -/
def le (a b : QReal) : Bool :=
  decide (a.mant * ((2 ^ b.exp : Nat) : Int) ≤ b.mant * ((2 ^ a.exp : Nat) : Int))

/-- Comparison `a < b`. -/
def lt (a b : QReal) : Bool :=
  decide (a.mant * ((2 ^ b.exp : Nat) : Int) < b.mant * ((2 ^ a.exp : Nat) : Int))

/-- The function `qAbs`. -/
def abs (a : QReal) : QReal := ⟨Int.ofNat a.mant.natAbs, a.exp⟩

/-- The function `qMin(a, b)`, which is `(a < b) ? a : b`. -/
def min (a b : QReal) : QReal := if lt a b then a else b

/-- The conversion `int(d)`: truncation toward zero. -/
def toInt (a : QReal) : Int := Int.tdiv a.mant ((2 ^ a.exp : Nat) : Int)

end QReal

/-- Qt 5 `qRound(double d)`:
`d >= 0.0 ? int(d + 0.5) : int(d - double(int(d-1)) + 0.5) + int(d-1)`
(the value is taken to fit an `int`; the definition agrees with the compiled
code wherever the double operations involved are exact). -/
def qRound (d : QReal) : Int :=
  if QReal.le (QReal.ofInt 0) d then QReal.toInt (QReal.add d QReal.half)
  else
    QReal.toInt
        (QReal.add (QReal.sub d (QReal.ofInt (QReal.toInt (QReal.sub d (QReal.ofInt 1)))))
          QReal.half)
      + QReal.toInt (QReal.sub d (QReal.ofInt 1))

/-- Qt 5 `qFuzzyCompare(double p1, double p2)`:
`qAbs(p1 - p2) * 1000000000000. <= qMin(qAbs(p1), qAbs(p2))`. -/
def qFuzzyCompare (p1 p2 : QReal) : Bool :=
  QReal.le (QReal.mul (QReal.abs (QReal.sub p1 p2)) (QReal.ofInt 1000000000000))
    (QReal.min (QReal.abs p1) (QReal.abs p2))

/-- The class `QSize` (integer size). -/
structure QSize where
  wd : Int
  ht : Int
deriving DecidableEq, Repr

/-- The class `QSizeF` (qreal size). -/
structure QSizeF where
  wd : QReal
  ht : QReal
deriving DecidableEq, Repr

/-- The default constructor `QSize()`: an invalid size, `(-1, -1)`. -/
def QSize.invalid : QSize := ⟨-1, -1⟩

/-- The converting constructor `QSizeF(const QSize &)`. -/
def QSizeF.ofQSize (s : QSize) : QSizeF := ⟨QReal.ofInt s.wd, QReal.ofInt s.ht⟩

/-- The operator `QSizeF * qreal`. -/
def QSizeF.scale (s : QSizeF) (c : QReal) : QSizeF := ⟨QReal.mul s.wd c, QReal.mul s.ht c⟩

/-- The operator `QSizeF != QSizeF`:
`!qFuzzyCompare(s1.wd, s2.wd) || !qFuzzyCompare(s1.ht, s2.ht)`. -/
def QSizeF.ne (s1 s2 : QSizeF) : Bool :=
  !qFuzzyCompare s1.wd s2.wd || !qFuzzyCompare s1.ht s2.ht

/-! ## Environment -/

/-- A pointer or a Vulkan handle; `0` is `nullptr` / `VK_NULL_HANDLE`. -/
abbrev Handle := Nat

/-- The enumeration `QSGRendererInterface::GraphicsApi` (Qt 5.15). -/
inductive GraphicsApi
  | Unknown | Software | OpenGL | Direct3D12 | OpenVG
  | OpenGLRhi | Direct3D11Rhi | VulkanRhi | MetalRhi | NullRhi
deriving DecidableEq, Repr

/-- Which preprocessor-guarded blocks of the file are compiled in. -/
structure BuildConfig where
  /-- The guard `QT_CONFIG(opengl)`. -/
  opengl : Bool
  /-- The guard `_WIN32`. -/
  win32 : Bool
  /-- The guard `__APPLE__`. -/
  apple : Bool
  /-- The guard `(VK_VERSION_1_0+0) && QT_CONFIG(vulkan)`. -/
  vulkan : Bool
  /-- Whether `Q_ASSERT` is active (no `QT_NO_DEBUG`). -/
  asserts : Bool
deriving DecidableEq, Repr

/-- The structure handed to `Player::setRenderAPI` (the Vulkan variant also
carries the node pointer and four callbacks that read the node). -/
inductive RenderAPI
  | gl (fbo : Handle)
  | d3d11 (rtv : Handle)
  | metal (texture device cmdQueue : Handle)
  | vulkan (inst device phyDevice renderPass : Handle)
deriving DecidableEq, Repr

/-- What the Vulkan device answers during one rebuild: the `VkResult` of each
creation call (`0` is `VK_SUCCESS`), the `memoryTypeBits` of the image's
memory requirements and the `memoryTypeCount` of the physical device. -/
structure VkAnswers where
  createRenderPass : Int
  createImage : Int
  memoryTypeBits : Nat
  memoryTypeCount : Nat
  allocateMemory : Int
  bindImageMemory : Int
  createImageView : Int
  createFramebuffer : Int
deriving DecidableEq, Repr

/-- What the environment answers during one `sync` call. -/
structure Host where
  /-- The value `m_window->effectiveDevicePixelRatio()`. -/
  effectiveDevicePixelRatio : QReal
  /-- Whether `m_player.lock()` is non-null. -/
  playerAlive : Bool
  /-- The value `rif->graphicsApi()`. -/
  graphicsApi : GraphicsApi
  /-- The pointer `rif->getResource(m_window, DeviceResource)`; `none` is null. -/
  deviceResource : Option Handle
  /-- The pointer `rif->getResource(m_window, VulkanInstanceResource)`. -/
  vulkanInstanceResource : Option Handle
  /-- The pointer `rif->getResource(m_window, PhysicalDeviceResource)`. -/
  physicalDeviceResource : Option Handle
  /-- The pointer `rif->getResource(m_window, CommandQueueResource)`. -/
  commandQueueResource : Handle
  /-- Whether the new `QOpenGLFramebufferObject` is valid. -/
  glFboValid : Bool
  /-- The `HRESULT` of `ID3D11Device::CreateTexture2D` (negative is `FAILED`). -/
  d3dCreateTexture2D : Int
  /-- Whether `newTextureWithDescriptor:` returns a texture. -/
  mtlTextureOk : Bool
  /-- The answers of the Vulkan device. -/
  vk : VkAnswers
  /-- Whether `createTextureFromNativeObject` returns a wrapper. -/
  wrapperOk : Bool
deriving DecidableEq, Repr

/-- A call made to the environment. -/
inductive Event
  | deleteTexture (t : Handle)
  | glCreateFramebuffer (w h : Int) (fbo tex : Handle)
  | glDeleteFramebuffer (fbo : Handle)
  | d3dReleaseTexture (t : Handle)
  | d3dCreateTexture2D (w h : Nat) (hr : Int) (t : Handle)
  | mtlNewTexture (w h : Nat) (t : Handle)
  | mtlReleaseTexture (t : Handle)
  | vkCreateRenderPass (res : Int) (rp : Handle)
  | vkCreateImage (w h : Nat) (res : Int) (img : Handle)
  | vkAllocateMemory (memIndex : Nat) (res : Int) (mem : Handle)
  | vkBindImageMemory (img mem : Handle) (res : Int)
  | vkCreateImageView (img : Handle) (res : Int) (view : Handle)
  | vkCreateFramebuffer (rp view : Handle) (w h : Nat) (res : Int) (fb : Handle)
  | vkDestroyFramebuffer (fb : Handle)
  | vkFreeMemory (mem : Handle)
  | vkDestroyImageView (view : Handle)
  | vkDestroyImage (img : Handle)
  | setRenderAPI (ra : RenderAPI)
  | scale (x y : Int)
  | createTextureFromNativeObject (nativeObj : Handle) (nativeLayout : Int) (size : QSize)
      (wrapper : Handle)
  | setVideoSurfaceSize (w h : Int)
  | renderVideo
  | connectBeforeRendering (node : Handle)
  | connectScreenChanged (node : Handle)
  | setTextureCoordinatesTransform (node : Handle)
  | setFiltering (node : Handle)
  | setRect (node : Handle) (w h : QReal)
  | windowUpdate
deriving DecidableEq, Repr

/-- The environment's state: the calls received so far and the handle counter. -/
structure World where
  trace : List Event
  nextHandle : Nat
deriving DecidableEq, Repr

namespace World

/-- Record a call. -/
def emit (w : World) (e : Event) : World := { w with trace := w.trace ++ [e] }

/-- The handle of the next object the environment creates (never null). -/
def freshHandle (w : World) : Handle := w.nextHandle + 1

/-- Consume the fresh handle. -/
def bump (w : World) : World := { w with nextHandle := w.nextHandle + 1 }

end World

/-- A C++ conversion of an `int` to a 32-bit unsigned (`uint32_t(x)`, `UINT`). -/
def toUInt32 (x : Int) : Nat := (x % 4294967296).toNat

/-- A C++ conversion of an `int` to a 64-bit unsigned (`NSUInteger`). -/
def toUInt64 (x : Int) : Nat := (x % 18446744073709551616).toNat

/-- Undefined behaviour that stops the call. -/
inductive Fault
  | nullDeref
  | assertFailed
deriving DecidableEq, Repr

/-! ## The node -/

/-- The object `QOpenGLFramebufferObject` owned by `fbo_gl`. -/
structure GLFbo where
  /-- The value of `handle()`. -/
  handle : Handle
  /-- The value of `texture()`. -/
  texture : Handle
deriving DecidableEq, Repr

/-- The members of `VideoTextureNode`.  `texture` is the pointer returned by
`QSGSimpleTextureNode::texture()`; `m_player` is observed through
`Host.playerAlive`. -/
structure VideoTextureNode where
  texture : Handle
  m_size : QSize
  m_dpr : QReal
  m_texture_mtl : Handle
  fbo_gl : Option GLFbo
  m_texture_d3d11 : Handle
  m_texture_vk : Handle
  m_textureMemory : Handle
  m_textureFramebuffer : Handle
  m_textureView : Handle
  m_physDev : Handle
  m_dev : Handle
  /-- Whether `m_devFuncs` is non-null. -/
  m_devFuncs : Bool
  /-- Whether `m_funcs` is non-null. -/
  m_funcs : Bool
  m_renderPass : Handle
deriving DecidableEq, Repr

/-- The node right after its constructor (`m_dpr` has no initialiser in the
source; it is written by `sync` before any read). -/
def VideoTextureNode.init : VideoTextureNode :=
  { texture := 0, m_size := QSize.invalid, m_dpr := QReal.ofInt 0, m_texture_mtl := 0,
    fbo_gl := none, m_texture_d3d11 := 0, m_texture_vk := 0, m_textureMemory := 0,
    m_textureFramebuffer := 0, m_textureView := 0, m_physDev := 0, m_dev := 0,
    m_devFuncs := false, m_funcs := false, m_renderPass := 0 }

/-- The image, memory, view and framebuffer handles are all `VK_NULL_HANDLE`. -/
def VideoTextureNode.imageSetNull (n : VideoTextureNode) : Prop :=
  n.m_texture_vk = 0 ∧ n.m_textureMemory = 0 ∧ n.m_textureView = 0 ∧ n.m_textureFramebuffer = 0

instance (n : VideoTextureNode) : Decidable n.imageSetNull := by
  unfold VideoTextureNode.imageSetNull; infer_instance

/-! ## Vulkan render-target assembly -/

/-- The constant `VK_IMAGE_LAYOUT_SHADER_READ_ONLY_OPTIMAL`. -/
def VK_IMAGE_LAYOUT_SHADER_READ_ONLY_OPTIMAL : Int := 5

/-- The test `memReq.memoryTypeBits & (1 << i)` on 32-bit operands. -/
def memoryTypeBitSet (memoryTypeBits i : Nat) : Bool :=
  memoryTypeBits &&& ((1 <<< i) % 4294967296) != 0

/-- The loop of `buildTexture` that chooses `memIndex`:
`for (i = 0; i < memoryTypeCount; ++i) { if (!(bits & (1 << i))) continue; memIndex = i; }`
starting from `memIndex = 0`. -/
def selectMemIndex (memoryTypeBits memoryTypeCount : Nat) : Nat :=
  (List.range memoryTypeCount).foldl
    (fun memIndex i => if !memoryTypeBitSet memoryTypeBits i then memIndex else i) 0

/-- The method `VideoTextureNode::createRenderPass`. -/
def createRenderPass (n : VideoTextureNode) (w : World) (vk : VkAnswers) :
    Bool × VideoTextureNode × World :=
  if vk.createRenderPass ≠ 0 then
    (false, n, w.emit (.vkCreateRenderPass vk.createRenderPass 0))
  else
    (true, { n with m_renderPass := w.freshHandle },
      w.bump.emit (.vkCreateRenderPass 0 w.freshHandle))

/-- The method `VideoTextureNode::buildTexture`. -/
def buildTexture (n : VideoTextureNode) (w : World) (vk : VkAnswers) (size : QSize) :
    Bool × VideoTextureNode × World :=
  let width := toUInt32 size.wd
  let height := toUInt32 size.ht
  if vk.createImage ≠ 0 then
    (false, n, w.emit (.vkCreateImage width height vk.createImage 0))
  else
    let image := w.freshHandle
    let w := w.bump.emit (.vkCreateImage width height 0 image)
    let n := { n with m_texture_vk := image }
    let memIndex := selectMemIndex vk.memoryTypeBits vk.memoryTypeCount
    if vk.allocateMemory ≠ 0 then
      (false, n, w.emit (.vkAllocateMemory memIndex vk.allocateMemory 0))
    else
      let memory := w.freshHandle
      let w := w.bump.emit (.vkAllocateMemory memIndex 0 memory)
      let n := { n with m_textureMemory := memory }
      let w := w.emit (.vkBindImageMemory image memory vk.bindImageMemory)
      if vk.bindImageMemory ≠ 0 then (false, n, w)
      else if vk.createImageView ≠ 0 then
        (false, n, w.emit (.vkCreateImageView image vk.createImageView 0))
      else
        let view := w.freshHandle
        let w := w.bump.emit (.vkCreateImageView image 0 view)
        let n := { n with m_textureView := view }
        if vk.createFramebuffer ≠ 0 then
          (false, n,
            w.emit (.vkCreateFramebuffer n.m_renderPass view width height
              vk.createFramebuffer 0))
        else
          let framebuffer := w.freshHandle
          let w := w.bump.emit
            (.vkCreateFramebuffer n.m_renderPass view width height 0 framebuffer)
          (true, { n with m_textureFramebuffer := framebuffer }, w)

/-- The method `VideoTextureNode::freeTexture`. -/
def freeTexture (n : VideoTextureNode) (w : World) : VideoTextureNode × World :=
  if n.m_texture_vk ≠ 0 then
    let w := w.emit (.vkDestroyFramebuffer n.m_textureFramebuffer)
    let w := w.emit (.vkFreeMemory n.m_textureMemory)
    let w := w.emit (.vkDestroyImageView n.m_textureView)
    let w := w.emit (.vkDestroyImage n.m_texture_vk)
    ({ n with m_textureFramebuffer := 0, m_textureMemory := 0, m_textureView := 0,
              m_texture_vk := 0 }, w)
  else (n, w)

/-! ## The sync / render cycle -/

/-- The state of `sync` after the `switch`: the node, the environment, and the
locals `nativeObj` and `nativeLayout`. -/
structure SwitchState where
  node : VideoTextureNode
  world : World
  nativeObj : Handle
  nativeLayout : Int
deriving DecidableEq, Repr

/-- The body of `case OpenGL: case OpenGLRhi:`.  `fbo_gl.reset(new ...)` builds
the new framebuffer object first and deletes the old one afterwards. -/
def openGLCase (cfg : BuildConfig) (h : Host) (s : SwitchState) : SwitchState :=
  if cfg.opengl then
    let fbo : GLFbo :=
      if h.glFboValid then ⟨s.world.freshHandle, s.world.freshHandle + 1⟩ else ⟨0, 0⟩
    let w := if h.glFboValid then s.world.bump.bump else s.world
    let w := w.emit (.glCreateFramebuffer s.node.m_size.wd s.node.m_size.ht fbo.handle fbo.texture)
    let w := match s.node.fbo_gl with
      | some old => w.emit (.glDeleteFramebuffer old.handle)
      | none => w
    let n := { s.node with fbo_gl := some fbo }
    let w := w.emit (.setRenderAPI (.gl fbo.handle))
    let w := w.emit (.scale 1 (-1))
    { node := n, world := w, nativeObj := fbo.texture, nativeLayout := s.nativeLayout }
  else s

/-- The body of `case Direct3D11Rhi:`.  Taking `&m_texture_d3d11` releases the
texture the `ComPtr` holds; a failed `CreateTexture2D` leaves it null. -/
def direct3D11Case (cfg : BuildConfig) (h : Host) (s : SwitchState) :
    Except Fault SwitchState :=
  if cfg.win32 then
    match h.deviceResource with
    | none => .error .nullDeref
    | some _ =>
      let w := if s.node.m_texture_d3d11 ≠ 0 then
          s.world.emit (.d3dReleaseTexture s.node.m_texture_d3d11)
        else s.world
      let tex : Handle := if h.d3dCreateTexture2D < 0 then 0 else w.freshHandle
      let w := if h.d3dCreateTexture2D < 0 then w else w.bump
      let w := w.emit (.d3dCreateTexture2D (toUInt32 s.node.m_size.wd)
        (toUInt32 s.node.m_size.ht) h.d3dCreateTexture2D tex)
      let n := { s.node with m_texture_d3d11 := tex }
      let w := w.emit (.setRenderAPI (.d3d11 tex))
      .ok { node := n, world := w, nativeObj := tex, nativeLayout := s.nativeLayout }
  else .ok s

/-- The body of `case MetalRhi:`.  Assigning to `m_texture_mtl` releases the
texture it held; a message to a nil device returns nil. -/
def metalCase (cfg : BuildConfig) (h : Host) (s : SwitchState) : Except Fault SwitchState :=
  if cfg.apple then
    if h.deviceResource = none ∧ cfg.asserts then .error .assertFailed
    else
      let made : Bool := h.deviceResource.isSome && h.mtlTextureOk
      let tex : Handle := if made then s.world.freshHandle else 0
      let w := if made then s.world.bump else s.world
      let w := match h.deviceResource with
        | some _ => w.emit (.mtlNewTexture (toUInt64 s.node.m_size.wd)
            (toUInt64 s.node.m_size.ht) tex)
        | none => w
      let w := if s.node.m_texture_mtl ≠ 0 then w.emit (.mtlReleaseTexture s.node.m_texture_mtl)
        else w
      let n := { s.node with m_texture_mtl := tex }
      let w := w.emit (.setRenderAPI (.metal tex (h.deviceResource.getD 0) h.commandQueueResource))
      .ok { node := n, world := w, nativeObj := tex, nativeLayout := s.nativeLayout }
  else .ok s

/-- The statements `createRenderPass(); freeTexture(); buildTexture(m_size);`
of `case VulkanRhi:` (their return values are not looked at). -/
def rebuildImageSet (n : VideoTextureNode) (w : World) (vk : VkAnswers) :
    VideoTextureNode × World :=
  let r := createRenderPass n w vk
  let f := freeTexture r.2.1 r.2.2
  let b := buildTexture f.1 f.2 vk f.1.m_size
  (b.2.1, b.2.2)

/-- The body of `case VulkanRhi:` once the three resources have been read:
`inst` is the instance, `physDev` and `dev` the handles the other two point to. -/
def vulkanBody (h : Host) (s : SwitchState) (inst physDev dev : Handle) : SwitchState :=
  let n := { s.node with m_physDev := physDev, m_dev := dev, m_devFuncs := true,
                         m_funcs := true }
  let b := rebuildImageSet n s.world h.vk
  let n := b.1
  let w := b.2.emit (.setRenderAPI (.vulkan inst n.m_dev n.m_physDev n.m_renderPass))
  { node := n, world := w, nativeObj := n.m_texture_vk,
    nativeLayout := VK_IMAGE_LAYOUT_SHADER_READ_ONLY_OPTIMAL }

/-- The body of `case VulkanRhi:`.  The three resources are dereferenced
without a null check. -/
def vulkanCase (cfg : BuildConfig) (h : Host) (s : SwitchState) : Except Fault SwitchState :=
  if cfg.vulkan then
    match h.vulkanInstanceResource, h.physicalDeviceResource, h.deviceResource with
    | some inst, some physDev, some dev => .ok (vulkanBody h s inst physDev dev)
    | _, _, _ => .error .nullDeref
  else .ok s

/-- The `switch (rif->graphicsApi())` of `sync`.  `case MetalRhi` has no
`break` and runs on into `case VulkanRhi`. -/
def backendSwitch (cfg : BuildConfig) (h : Host) (s : SwitchState) : Except Fault SwitchState :=
  match h.graphicsApi with
  | .OpenGL => .ok (openGLCase cfg h s)
  | .OpenGLRhi => .ok (openGLCase cfg h s)
  | .Direct3D11Rhi => direct3D11Case cfg h s
  | .MetalRhi =>
    match metalCase cfg h s with
    | .error e => .error e
    | .ok s => vulkanCase cfg h s
  | .VulkanRhi => vulkanCase cfg h s
  | _ => .ok s

/-- The statement `delete texture();` (the node keeps the pointer). -/
def deleteTexture (n : VideoTextureNode) (w : World) : World :=
  if n.texture ≠ 0 then w.emit (.deleteTexture n.texture) else w

/-- The value `needsNew` has when `sync` tests it: there is no texture, or
`newSize = m_item->size() * m_dpr` differs from `m_size`. -/
def needsNew (n : VideoTextureNode) (h : Host) (itemSize : QSizeF) : Bool :=
  n.texture == 0 || (itemSize.scale h.effectiveDevicePixelRatio).ne (QSizeF.ofQSize n.m_size)

/-- The statements of `sync` before the test of `needsNew`: `m_dpr` is stored,
and when `newSize != m_size` the rounded `newSize` is stored in `m_size`. -/
def storeSize (n : VideoTextureNode) (h : Host) (itemSize : QSizeF) : VideoTextureNode :=
  let n := { n with m_dpr := h.effectiveDevicePixelRatio }
  let newSize := itemSize.scale n.m_dpr
  if newSize.ne (QSizeF.ofQSize n.m_size) then
    { n with m_size := ⟨qRound newSize.wd, qRound newSize.ht⟩ }
  else n

/-- The statements of `sync` after the `switch`: the native object, when not
null, is wrapped and the wrapper becomes the node's texture; then the player
is told the surface size. -/
def wrapAndResize (h : Host) (s : SwitchState) : VideoTextureNode × World :=
  if s.nativeObj ≠ 0 then
    let wrapper : Handle := if h.wrapperOk then s.world.freshHandle else 0
    let w := if h.wrapperOk then s.world.bump else s.world
    let w := w.emit
      (.createTextureFromNativeObject s.nativeObj s.nativeLayout s.node.m_size wrapper)
    let n := { s.node with texture := wrapper }
    (n, w.emit (.setVideoSurfaceSize n.m_size.wd n.m_size.ht))
  else
    (s.node, s.world.emit (.setVideoSurfaceSize s.node.m_size.wd s.node.m_size.ht))

/-- The method `VideoTextureNode::sync`; `itemSize` is `m_item->size()`. -/
def sync (cfg : BuildConfig) (n : VideoTextureNode) (w : World) (h : Host) (itemSize : QSizeF) :
    Except Fault (VideoTextureNode × World) :=
  let n1 := storeSize n h itemSize
  if !needsNew n h itemSize then .ok (n1, w)
  else
    let w := deleteTexture n1 w
    if !h.playerAlive then .ok (n1, w)
    else
      match backendSwitch cfg h ⟨n1, w, 0, 0⟩ with
      | .error e => .error e
      | .ok s => .ok (wrapAndResize h s)

/-- The slot `VideoTextureNode::render`; `playerAlive` is whether
`m_player.lock()` is non-null. -/
def render (n : VideoTextureNode) (w : World) (playerAlive : Bool) : VideoTextureNode × World :=
  if !playerAlive then (n, w) else (n, w.emit .renderVideo)

/-! ## The item -/

/-- The members of `VideoTextureItem` that `updatePaintNode` reads or writes.
`m_node` is a pointer into the node heap: `0` is `nullptr`, `a + 1` is the
node stored at position `a`. -/
structure VideoTextureItem where
  width : QReal
  height : QReal
  m_node : Handle
deriving DecidableEq, Repr

/-- What `updatePaintNode` leaves behind, and the pointer it returns. -/
structure PaintResult where
  item : VideoTextureItem
  heap : List VideoTextureNode
  world : World
  result : Handle
deriving DecidableEq, Repr

/-- The method `VideoTextureItem::updatePaintNode(node, ...)`.  A new node is
put at the end of the heap; its constructor connects two window signals. -/
def updatePaintNode (cfg : BuildConfig) (item : VideoTextureItem) (heap : List VideoTextureNode)
    (w : World) (h : Host) (node : Handle) : Except Fault PaintResult :=
  if node = 0 ∧ (QReal.le item.width (QReal.ofInt 0) ∨ QReal.le item.height (QReal.ofInt 0))
  then .ok ⟨item, heap, w, 0⟩
  else
    let created : Bool := node = 0
    let fresh : Handle := heap.length + 1
    let item := if created then { item with m_node := fresh } else item
    let heap := if created then heap ++ [VideoTextureNode.init] else heap
    let w := if created then
        (w.emit (.connectBeforeRendering fresh)).emit (.connectScreenChanged fresh)
      else w
    let n : Handle := if created then fresh else node
    if item.m_node = 0 then .error .nullDeref
    else
      match heap.get? (item.m_node - 1) with
      | none => .error .nullDeref
      | some obj =>
        match sync cfg obj w h ⟨item.width, item.height⟩ with
        | .error e => .error e
        | .ok (obj, w) =>
          let heap := heap.set (item.m_node - 1) obj
          let w := w.emit (.setTextureCoordinatesTransform n)
          let w := w.emit (.setFiltering n)
          let w := w.emit (.setRect n item.width item.height)
          let w := w.emit .windowUpdate
          .ok ⟨item, heap, w, n⟩

/-! ## Observations on traces -/

/-- The calls received by the environment between `w0` and the later `w1`. -/
def since (w0 w1 : World) : List Event := w1.trace.drop w0.trace.length

/-- A Vulkan object of the image set or a render pass. -/
inductive VkObject
  | image (h : Handle)
  | memory (h : Handle)
  | imageView (h : Handle)
  | framebuffer (h : Handle)
  | renderPass (h : Handle)
deriving DecidableEq, Repr

/-- The object a call brings to life, if any (a successful creation). -/
def Event.created : Event → Option VkObject
  | .vkCreateImage _ _ res img => if res = 0 then some (.image img) else none
  | .vkAllocateMemory _ res mem => if res = 0 then some (.memory mem) else none
  | .vkCreateImageView _ res view => if res = 0 then some (.imageView view) else none
  | .vkCreateFramebuffer _ _ _ _ res fb => if res = 0 then some (.framebuffer fb) else none
  | .vkCreateRenderPass res rp => if res = 0 then some (.renderPass rp) else none
  | _ => none

/-- The object a call destroys, if any (destroying a null handle is a no-op). -/
def Event.destroyed : Event → Option VkObject
  | .vkDestroyImage img => if img ≠ 0 then some (.image img) else none
  | .vkFreeMemory mem => if mem ≠ 0 then some (.memory mem) else none
  | .vkDestroyImageView view => if view ≠ 0 then some (.imageView view) else none
  | .vkDestroyFramebuffer fb => if fb ≠ 0 then some (.framebuffer fb) else none
  | _ => none

/-- The call is a `vkCreateRenderPass`. -/
def Event.isCreateRenderPass : Event → Bool
  | .vkCreateRenderPass _ _ => true
  | _ => false

/-- The call is a `vkCreateImage`. -/
def Event.isCreateImage : Event → Bool
  | .vkCreateImage _ _ _ _ => true
  | _ => false

/-- The call is a `createTextureFromNativeObject`. -/
def Event.isWrap : Event → Bool
  | .createTextureFromNativeObject _ _ _ _ => true
  | _ => false

/-- Run `sync` once per element of `calls`, in order. -/
def syncAll (cfg : BuildConfig) (n : VideoTextureNode) (w : World) :
    List (Host × QSizeF) → Except Fault (VideoTextureNode × World)
  | [] => .ok (n, w)
  | c :: rest =>
    match sync cfg n w c.1 c.2 with
    | .error e => .error e
    | .ok r => syncAll cfg r.1 r.2 rest

/-- Every call of the sequence is a rebuilding one: when it starts, `needsNew`
holds and the player is alive. -/
def allRebuild (cfg : BuildConfig) (n : VideoTextureNode) (w : World) :
    List (Host × QSizeF) → Bool
  | [] => true
  | c :: rest =>
    needsNew n c.1 c.2 && c.1.playerAlive &&
      match sync cfg n w c.1 c.2 with
      | .error _ => false
      | .ok r => allRebuild cfg r.1 r.2 rest

/-- The method `buildTexture` followed immediately by `freeTexture`. -/
def buildThenFree (n : VideoTextureNode) (w : World) (vk : VkAnswers) (size : QSize) :
    VideoTextureNode × World :=
  freeTexture (buildTexture n w vk size).2.1 (buildTexture n w vk size).2.2

/-- How many of the calls received so far satisfy `p`. -/
def calls (p : Event → Bool) (w : World) : Nat := w.trace.countP p

/-! ## Concrete inputs -/

/-- A build with every guarded block compiled in. -/
def cfgAll : BuildConfig :=
  { opengl := true, win32 := true, apple := true, vulkan := true, asserts := true }

/-- The environment before any call. -/
def world0 : World := { trace := [], nextHandle := 0 }

/-- A device on which every step succeeds; types 0 and 1 both fit the image. -/
def vkTwoTypes : VkAnswers :=
  { createRenderPass := 0, createImage := 0, memoryTypeBits := 3, memoryTypeCount := 2,
    allocateMemory := 0, bindImageMemory := 0, createImageView := 0, createFramebuffer := 0 }

/-- As `vkTwoTypes`, but `vkAllocateMemory` fails with
`VK_ERROR_OUT_OF_DEVICE_MEMORY` (-2). -/
def vkAllocFails : VkAnswers := { vkTwoTypes with allocateMemory := -2 }

/-- As `vkTwoTypes`, but `vkCreateImage` fails with
`VK_ERROR_OUT_OF_DEVICE_MEMORY` (-2). -/
def vkImageFails : VkAnswers := { vkTwoTypes with createImage := -2 }

/-- A host with a live player on which every creation succeeds; the Vulkan
resources are those of a Vulkan scene graph. -/
def hostOk (api : GraphicsApi) (dpr : QReal) : Host :=
  { effectiveDevicePixelRatio := dpr, playerAlive := true, graphicsApi := api,
    deviceResource := some 1000, vulkanInstanceResource := some 1001,
    physicalDeviceResource := some 1002, commandQueueResource := 1003, glFboValid := true,
    d3dCreateTexture2D := 0, mtlTextureOk := true, vk := vkTwoTypes, wrapperOk := true }

/-- A logical item size with integer width and height. -/
def itemSize (w h : Int) : QSizeF := ⟨QReal.ofInt w, QReal.ofInt h⟩

/-- The scale factor `1.0`. -/
def dpr1 : QReal := QReal.ofInt 1

/-- The scale factor `1.5`. -/
def dpr1_5 : QReal := ⟨3, 1⟩

/-- A resize from 800 x 600 to 400 x 300 on the Vulkan backend, scale factor 1. -/
def vulkanResize : List (Host × QSizeF) :=
  [(hostOk .VulkanRhi dpr1, itemSize 800 600), (hostOk .VulkanRhi dpr1, itemSize 400 300)]

/-- The calls received by the end of a run that did not fault. -/
def traceOf (r : Except Fault (VideoTextureNode × World)) : Option (List Event) :=
  match r with
  | .ok x => some x.2.trace
  | .error _ => none

/-- The fault that stopped a run, if any. -/
def faultOf (r : Except Fault (VideoTextureNode × World)) : Option Fault :=
  match r with
  | .ok _ => none
  | .error e => some e

/-- An item of 101 x 100 on a screen with scale factor 1.5 (effective size
151.5 x 150), OpenGL backend. -/
def fractionalCall : Host × QSizeF := (hostOk .OpenGL dpr1_5, itemSize 101 100)

/-- A Metal scene graph as Qt reports it: the Vulkan resources are null. -/
def hostMetal : Host :=
  { hostOk .MetalRhi dpr1 with vulkanInstanceResource := none, physicalDeviceResource := none }

/-- A Vulkan host on which `vkAllocateMemory` fails. -/
def hostVkAllocFails : Host := { hostOk .VulkanRhi dpr1 with vk := vkAllocFails }

/-- A Vulkan host on which `vkCreateImage` fails. -/
def hostVkImageFails : Host := { hostOk .VulkanRhi dpr1 with vk := vkImageFails }

/-- An item of 800 x 600 that has no node yet. -/
def item800x600 : VideoTextureItem :=
  { width := QReal.ofInt 800, height := QReal.ofInt 600, m_node := 0 }

/-- An item of 0 x 0 that has no node yet. -/
def itemZero : VideoTextureItem :=
  { width := QReal.ofInt 0, height := QReal.ofInt 0, m_node := 0 }

/-- Two paint calls on the OpenGL backend: the first creates the node for an
item of 800 x 600; then the item shrinks to 0 x 0 and the scene graph passes
the node back. -/
def zeroAreaRepaint : Except Fault PaintResult :=
  match updatePaintNode cfgAll item800x600 [] world0 (hostOk .OpenGL dpr1) 0 with
  | .error e => .error e
  | .ok r =>
    updatePaintNode cfgAll { r.item with width := QReal.ofInt 0, height := QReal.ofInt 0 }
      r.heap r.world (hostOk .OpenGL dpr1) r.result

/-- The pointer returned by a paint call that did not fault. -/
def returnedNode (r : Except Fault PaintResult) : Option Handle :=
  match r with
  | .ok x => some x.result
  | .error _ => none

/-- The calls received by the end of a paint call that did not fault. -/
def paintTrace (r : Except Fault PaintResult) : Option (List Event) :=
  match r with
  | .ok x => some x.world.trace
  | .error _ => none

/-- An item of 800 x 600 at scale factor 1, OpenGL backend, live player. -/
def integralCall : Host × QSizeF := (hostOk .OpenGL dpr1, itemSize 800 600)

/-- A sync of an 800 x 600 item on a Vulkan device whose `vkAllocateMemory`
fails. -/
def allocFailureCall : Host × QSizeF := (hostVkAllocFails, itemSize 800 600)

/-- The same item synced on a Vulkan device on which every step succeeds. -/
def healthyVulkanCall : Host × QSizeF := (hostOk .VulkanRhi dpr1, itemSize 800 600)

/-! ## Basic facts -/

theorem trace_emit (w : World) (e : Event) : (w.emit e).trace = w.trace ++ [e] := rfl

theorem trace_bump (w : World) : w.bump.trace = w.trace := rfl

theorem since_append (w0 w1 : World) (evs : List Event) (h : w1.trace = w0.trace ++ evs) :
    since w0 w1 = evs := by
  unfold since
  rw [h, List.drop_left]

theorem memoryTypeBitSet_iff (bits i : Nat) (hi : i < 32) :
    memoryTypeBitSet bits i = bits.testBit i := by
  unfold memoryTypeBitSet
  have hlt : 2 ^ i < 4294967296 := by
    have : 2 ^ i < 2 ^ 32 := Nat.pow_lt_pow_right (by decide) hi
    simpa using this
  rw [Nat.one_shiftLeft, Nat.mod_eq_of_lt hlt, Nat.and_two_pow]
  cases hb : bits.testBit i
  · simp
  · simp

theorem selectMemIndex_succ (bits c : Nat) :
    selectMemIndex bits (c + 1) =
      if memoryTypeBitSet bits c then c else selectMemIndex bits c := by
  unfold selectMemIndex
  rw [List.range_succ, List.foldl_append]
  cases hb : memoryTypeBitSet bits c <;> simp [hb]

/-- The loop ends on the highest index below the count whose bit is set. -/
theorem selectMemIndex_last (bits c : Nat) (hex : ∃ i, i < c ∧ memoryTypeBitSet bits i = true) :
    selectMemIndex bits c < c ∧ memoryTypeBitSet bits (selectMemIndex bits c) = true ∧
      ∀ k, k < c → memoryTypeBitSet bits k = true → k ≤ selectMemIndex bits c := by
  induction c with
  | zero => obtain ⟨i, hi, _⟩ := hex; omega
  | succ c ih =>
    rw [selectMemIndex_succ]
    cases hb : memoryTypeBitSet bits c
    · have hex2 : ∃ i, i < c ∧ memoryTypeBitSet bits i = true := by
        obtain ⟨i, hi, hset⟩ := hex
        refine ⟨i, ?_, hset⟩
        rcases Nat.lt_succ_iff_lt_or_eq.mp hi with h | h
        · exact h
        · subst h; rw [hb] at hset; cases hset
      obtain ⟨h1, h2, h3⟩ := ih hex2
      simp only [Bool.false_eq_true, if_false]
      refine ⟨by omega, h2, ?_⟩
      intro k hk hset
      rcases Nat.lt_succ_iff_lt_or_eq.mp hk with h | h
      · exact h3 k h hset
      · subst h; rw [hb] at hset; cases hset
    · simp only [if_true]
      exact ⟨by omega, hb, fun k hk _ => by omega⟩

/-! ## The six outcomes of `buildTexture` -/

theorem buildTexture_image_fail (n : VideoTextureNode) (w : World) (vk : VkAnswers) (size : QSize)
    (h1 : vk.createImage ≠ 0) :
    buildTexture n w vk size =
      (false, n,
        ⟨w.trace ++ [Event.vkCreateImage (toUInt32 size.wd) (toUInt32 size.ht) vk.createImage 0],
          w.nextHandle⟩) := by
  simp [buildTexture, h1, World.emit]

theorem buildTexture_alloc_fail (n : VideoTextureNode) (w : World) (vk : VkAnswers) (size : QSize)
    (h1 : vk.createImage = 0) (h2 : vk.allocateMemory ≠ 0) :
    buildTexture n w vk size =
      (false, { n with m_texture_vk := w.nextHandle + 1 },
        ⟨w.trace ++
          [Event.vkCreateImage (toUInt32 size.wd) (toUInt32 size.ht) 0 (w.nextHandle + 1),
           Event.vkAllocateMemory (selectMemIndex vk.memoryTypeBits vk.memoryTypeCount)
             vk.allocateMemory 0],
          w.nextHandle + 1⟩) := by
  simp [buildTexture, h1, h2, World.emit, World.bump, World.freshHandle]

theorem buildTexture_bind_fail (n : VideoTextureNode) (w : World) (vk : VkAnswers) (size : QSize)
    (h1 : vk.createImage = 0) (h2 : vk.allocateMemory = 0) (h3 : vk.bindImageMemory ≠ 0) :
    buildTexture n w vk size =
      (false, { n with m_texture_vk := w.nextHandle + 1, m_textureMemory := w.nextHandle + 2 },
        ⟨w.trace ++
          [Event.vkCreateImage (toUInt32 size.wd) (toUInt32 size.ht) 0 (w.nextHandle + 1),
           Event.vkAllocateMemory (selectMemIndex vk.memoryTypeBits vk.memoryTypeCount) 0
             (w.nextHandle + 2),
           Event.vkBindImageMemory (w.nextHandle + 1) (w.nextHandle + 2) vk.bindImageMemory],
          w.nextHandle + 2⟩) := by
  simp [buildTexture, h1, h2, h3, World.emit, World.bump, World.freshHandle]

theorem buildTexture_view_fail (n : VideoTextureNode) (w : World) (vk : VkAnswers) (size : QSize)
    (h1 : vk.createImage = 0) (h2 : vk.allocateMemory = 0) (h3 : vk.bindImageMemory = 0)
    (h4 : vk.createImageView ≠ 0) :
    buildTexture n w vk size =
      (false, { n with m_texture_vk := w.nextHandle + 1, m_textureMemory := w.nextHandle + 2 },
        ⟨w.trace ++
          [Event.vkCreateImage (toUInt32 size.wd) (toUInt32 size.ht) 0 (w.nextHandle + 1),
           Event.vkAllocateMemory (selectMemIndex vk.memoryTypeBits vk.memoryTypeCount) 0
             (w.nextHandle + 2),
           Event.vkBindImageMemory (w.nextHandle + 1) (w.nextHandle + 2) 0,
           Event.vkCreateImageView (w.nextHandle + 1) vk.createImageView 0],
          w.nextHandle + 2⟩) := by
  simp [buildTexture, h1, h2, h3, h4, World.emit, World.bump, World.freshHandle]

theorem buildTexture_framebuffer_fail (n : VideoTextureNode) (w : World) (vk : VkAnswers)
    (size : QSize) (h1 : vk.createImage = 0) (h2 : vk.allocateMemory = 0)
    (h3 : vk.bindImageMemory = 0) (h4 : vk.createImageView = 0) (h5 : vk.createFramebuffer ≠ 0) :
    buildTexture n w vk size =
      (false,
        { n with m_texture_vk := w.nextHandle + 1, m_textureMemory := w.nextHandle + 2,
                 m_textureView := w.nextHandle + 3 },
        ⟨w.trace ++
          [Event.vkCreateImage (toUInt32 size.wd) (toUInt32 size.ht) 0 (w.nextHandle + 1),
           Event.vkAllocateMemory (selectMemIndex vk.memoryTypeBits vk.memoryTypeCount) 0
             (w.nextHandle + 2),
           Event.vkBindImageMemory (w.nextHandle + 1) (w.nextHandle + 2) 0,
           Event.vkCreateImageView (w.nextHandle + 1) 0 (w.nextHandle + 3),
           Event.vkCreateFramebuffer n.m_renderPass (w.nextHandle + 3) (toUInt32 size.wd)
             (toUInt32 size.ht) vk.createFramebuffer 0],
          w.nextHandle + 3⟩) := by
  simp [buildTexture, h1, h2, h3, h4, h5, World.emit, World.bump, World.freshHandle]

theorem buildTexture_success (n : VideoTextureNode) (w : World) (vk : VkAnswers)
    (size : QSize) (h1 : vk.createImage = 0) (h2 : vk.allocateMemory = 0)
    (h3 : vk.bindImageMemory = 0) (h4 : vk.createImageView = 0) (h5 : vk.createFramebuffer = 0) :
    buildTexture n w vk size =
      (true,
        { n with m_texture_vk := w.nextHandle + 1, m_textureMemory := w.nextHandle + 2,
                 m_textureView := w.nextHandle + 3, m_textureFramebuffer := w.nextHandle + 4 },
        ⟨w.trace ++
          [Event.vkCreateImage (toUInt32 size.wd) (toUInt32 size.ht) 0 (w.nextHandle + 1),
           Event.vkAllocateMemory (selectMemIndex vk.memoryTypeBits vk.memoryTypeCount) 0
             (w.nextHandle + 2),
           Event.vkBindImageMemory (w.nextHandle + 1) (w.nextHandle + 2) 0,
           Event.vkCreateImageView (w.nextHandle + 1) 0 (w.nextHandle + 3),
           Event.vkCreateFramebuffer n.m_renderPass (w.nextHandle + 3) (toUInt32 size.wd)
             (toUInt32 size.ht) 0 (w.nextHandle + 4)],
          w.nextHandle + 4⟩) := by
  simp [buildTexture, h1, h2, h3, h4, h5, World.emit, World.bump, World.freshHandle]

theorem perm_of_mem_iff {l₁ l₂ : List VkObject} (d₁ : l₁.Nodup) (d₂ : l₂.Nodup)
    (h : ∀ a, a ∈ l₁ ↔ a ∈ l₂) : l₁.Perm l₂ :=
  (List.perm_ext_iff_of_nodup d₁ d₂).2 h

/-! ## Vulkan render-target assembly: theorems -/

/-- C3. After a successful `buildTexture`, `freeTexture` makes exactly four
calls, in the order destroy framebuffer, free memory, destroy image view,
destroy image, each on the (non-null) handle the build stored, and leaves the
four stored handles null. -/
theorem freeTexture_teardown_order (n : VideoTextureNode) (w : World) (vk : VkAnswers)
    (size : QSize) (hok : (buildTexture n w vk size).1 = true) :
    since (buildTexture n w vk size).2.2
        (freeTexture (buildTexture n w vk size).2.1 (buildTexture n w vk size).2.2).2 =
      [Event.vkDestroyFramebuffer (buildTexture n w vk size).2.1.m_textureFramebuffer,
       Event.vkFreeMemory (buildTexture n w vk size).2.1.m_textureMemory,
       Event.vkDestroyImageView (buildTexture n w vk size).2.1.m_textureView,
       Event.vkDestroyImage (buildTexture n w vk size).2.1.m_texture_vk] ∧
    (buildTexture n w vk size).2.1.m_textureFramebuffer ≠ 0 ∧
    (buildTexture n w vk size).2.1.m_textureMemory ≠ 0 ∧
    (buildTexture n w vk size).2.1.m_textureView ≠ 0 ∧
    (buildTexture n w vk size).2.1.m_texture_vk ≠ 0 ∧
    (freeTexture (buildTexture n w vk size).2.1 (buildTexture n w vk size).2.2).1.imageSetNull := by
  have himg : (buildTexture n w vk size).2.1.m_texture_vk ≠ 0 ∧
      (buildTexture n w vk size).2.1.m_textureFramebuffer ≠ 0 ∧
      (buildTexture n w vk size).2.1.m_textureMemory ≠ 0 ∧
      (buildTexture n w vk size).2.1.m_textureView ≠ 0 := by
    revert hok
    unfold buildTexture
    split_ifs <;> simp [World.freshHandle, World.bump, World.emit]
  obtain ⟨h1, h2, h3, h4⟩ := himg
  refine ⟨?_, h2, h3, h4, h1, ?_⟩
  · apply since_append
    simp [freeTexture, h1, trace_emit]
  · simp [freeTexture, h1, VideoTextureNode.imageSetNull]

/-- C6. Starting from a null image set (the state in which `sync` calls it),
`buildTexture` followed immediately by `freeTexture` leaks nothing, whatever
the results of the five creation steps and whatever the size (in particular
for every width > 0 and height > 0): the objects created are pairwise
distinct, the non-null handles destroyed are exactly the objects created, each
once, and the four stored handles are null afterwards. -/
theorem buildThenFree_leaks_nothing (n : VideoTextureNode) (w : World) (vk : VkAnswers)
    (size : QSize) (hnull : n.imageSetNull) :
    ((since w (buildThenFree n w vk size).2).filterMap Event.created).Nodup ∧
    List.Perm ((since w (buildThenFree n w vk size).2).filterMap Event.destroyed)
      ((since w (buildThenFree n w vk size).2).filterMap Event.created) ∧
    (buildThenFree n w vk size).1.imageSetNull := by
  obtain ⟨g1, g2, g3, g4⟩ := hnull
  unfold buildThenFree
  by_cases h1 : vk.createImage = 0
  · by_cases h2 : vk.allocateMemory = 0
    · by_cases h3 : vk.bindImageMemory = 0
      · by_cases h4 : vk.createImageView = 0
        · by_cases h5 : vk.createFramebuffer = 0
          · rw [buildTexture_success n w vk size h1 h2 h3 h4 h5]
            simp [freeTexture, since, World.emit, Event.created, Event.destroyed,
              VideoTextureNode.imageSetNull, g1, g2, g3, g4, h1, h2, h3, h4, h5]
            exact perm_of_mem_iff (by simp) (by simp) (by intro a; simp; tauto)
          · rw [buildTexture_framebuffer_fail n w vk size h1 h2 h3 h4 h5]
            simp [freeTexture, since, World.emit, Event.created, Event.destroyed,
              VideoTextureNode.imageSetNull, g1, g2, g3, g4, h1, h2, h3, h4, h5]
            exact perm_of_mem_iff (by simp) (by simp) (by intro a; simp; tauto)
        · rw [buildTexture_view_fail n w vk size h1 h2 h3 h4]
          simp [freeTexture, since, World.emit, Event.created, Event.destroyed,
            VideoTextureNode.imageSetNull, g1, g2, g3, g4, h1, h2, h3, h4]
          exact perm_of_mem_iff (by simp) (by simp) (by intro a; simp; tauto)
      · rw [buildTexture_bind_fail n w vk size h1 h2 h3]
        simp [freeTexture, since, World.emit, Event.created, Event.destroyed,
          VideoTextureNode.imageSetNull, g1, g2, g3, g4, h1, h2, h3]
        exact perm_of_mem_iff (by simp) (by simp) (by intro a; simp; tauto)
    · rw [buildTexture_alloc_fail n w vk size h1 h2]
      simp [freeTexture, since, World.emit, Event.created, Event.destroyed,
        VideoTextureNode.imageSetNull, g1, g2, g3, g4, h1, h2]
  · rw [buildTexture_image_fail n w vk size h1]
    simp [freeTexture, since, World.emit, Event.created, Event.destroyed,
      VideoTextureNode.imageSetNull, g1, g2, g3, g4, h1]

/-! ## Counting calls -/

theorem calls_emit (p : Event → Bool) (w : World) (e : Event) :
    calls p (w.emit e) = calls p w + (if p e then 1 else 0) := by
  simp [calls, World.emit, List.countP_append, List.countP_cons]

theorem calls_bump (p : Event → Bool) (w : World) : calls p w.bump = calls p w := rfl

theorem calls_deleteTexture (p : Event → Bool) (n : VideoTextureNode) (w : World)
    (hp : ∀ t, p (.deleteTexture t) = false) :
    calls p (deleteTexture n w) = calls p w := by
  unfold deleteTexture
  split_ifs <;> simp [calls_emit, hp]

theorem calls_freeTexture (p : Event → Bool) (n : VideoTextureNode) (w : World)
    (h1 : ∀ x, p (.vkDestroyFramebuffer x) = false) (h2 : ∀ x, p (.vkFreeMemory x) = false)
    (h3 : ∀ x, p (.vkDestroyImageView x) = false) (h4 : ∀ x, p (.vkDestroyImage x) = false) :
    calls p (freeTexture n w).2 = calls p w := by
  unfold freeTexture
  split_ifs <;> simp [calls_emit, h1, h2, h3, h4]

theorem renderPassCreations_createRenderPass (n : VideoTextureNode) (w : World) (vk : VkAnswers) :
    calls Event.isCreateRenderPass (createRenderPass n w vk).2.2 =
      calls Event.isCreateRenderPass w + 1 := by
  unfold createRenderPass
  split_ifs <;> simp [calls_emit, calls_bump, Event.isCreateRenderPass]

theorem renderPassCreations_buildTexture (n : VideoTextureNode) (w : World) (vk : VkAnswers)
    (size : QSize) :
    calls Event.isCreateRenderPass (buildTexture n w vk size).2.2 =
      calls Event.isCreateRenderPass w := by
  unfold buildTexture
  split_ifs <;> simp [calls_emit, calls_bump, Event.isCreateRenderPass]

theorem imageCreations_createRenderPass (n : VideoTextureNode) (w : World) (vk : VkAnswers) :
    calls Event.isCreateImage (createRenderPass n w vk).2.2 = calls Event.isCreateImage w := by
  unfold createRenderPass
  split_ifs <;> simp [calls_emit, calls_bump, Event.isCreateImage]

theorem imageCreations_buildTexture (n : VideoTextureNode) (w : World) (vk : VkAnswers)
    (size : QSize) :
    calls Event.isCreateImage (buildTexture n w vk size).2.2 = calls Event.isCreateImage w + 1 := by
  unfold buildTexture
  split_ifs <;> simp [calls_emit, calls_bump, Event.isCreateImage]


theorem rebuildImageSet_renderPassCreations (n : VideoTextureNode) (w : World) (vk : VkAnswers) :
    calls Event.isCreateRenderPass (rebuildImageSet n w vk).2 =
      calls Event.isCreateRenderPass w + 1 := by
  simp only [rebuildImageSet]
  rw [renderPassCreations_buildTexture,
    calls_freeTexture _ _ _ (fun _ => rfl) (fun _ => rfl) (fun _ => rfl) (fun _ => rfl),
    renderPassCreations_createRenderPass]

theorem rebuildImageSet_imageCreations (n : VideoTextureNode) (w : World) (vk : VkAnswers) :
    calls Event.isCreateImage (rebuildImageSet n w vk).2 = calls Event.isCreateImage w + 1 := by
  simp only [rebuildImageSet]
  rw [imageCreations_buildTexture,
    calls_freeTexture _ _ _ (fun _ => rfl) (fun _ => rfl) (fun _ => rfl) (fun _ => rfl),
    imageCreations_createRenderPass]


theorem wrapAndResize_renderPassCreations (h : Host) (s : SwitchState) :
    calls Event.isCreateRenderPass (wrapAndResize h s).2 =
      calls Event.isCreateRenderPass s.world := by
  unfold wrapAndResize
  split_ifs <;> simp [calls_emit, calls_bump, Event.isCreateRenderPass]

theorem wrapAndResize_imageCreations (h : Host) (s : SwitchState) :
    calls Event.isCreateImage (wrapAndResize h s).2 = calls Event.isCreateImage s.world := by
  unfold wrapAndResize
  split_ifs <;> simp [calls_emit, calls_bump, Event.isCreateImage]


/-- A rebuilding `sync` on the Vulkan backend, as a composition of its parts. -/
theorem sync_vulkan_rebuild (cfg : BuildConfig) (n : VideoTextureNode) (w : World) (h : Host)
    (item : QSizeF) (inst physDev dev : Handle) (hcfg : cfg.vulkan = true)
    (hapi : h.graphicsApi = .VulkanRhi) (halive : h.playerAlive = true)
    (hnew : needsNew n h item = true) (hinst : h.vulkanInstanceResource = some inst)
    (hphys : h.physicalDeviceResource = some physDev) (hdev : h.deviceResource = some dev) :
    sync cfg n w h item = .ok (wrapAndResize h
      (vulkanBody h ⟨storeSize n h item, deleteTexture (storeSize n h item) w, 0, 0⟩
        inst physDev dev)) := by
  simp only [sync, hnew, halive, backendSwitch, hapi, vulkanCase, hcfg, hinst, hphys, hdev]
  rfl

theorem vulkanBody_renderPassCreations (h : Host) (s : SwitchState) (inst physDev dev : Handle) :
    calls Event.isCreateRenderPass (vulkanBody h s inst physDev dev).world =
      calls Event.isCreateRenderPass s.world + 1 := by
  simp [vulkanBody, calls_emit, Event.isCreateRenderPass, rebuildImageSet_renderPassCreations]

theorem vulkanBody_imageCreations (h : Host) (s : SwitchState) (inst physDev dev : Handle) :
    calls Event.isCreateImage (vulkanBody h s inst physDev dev).world =
      calls Event.isCreateImage s.world + 1 := by
  simp [vulkanBody, calls_emit, Event.isCreateImage, rebuildImageSet_imageCreations]

theorem sync_vulkan_rebuild_counts (cfg : BuildConfig) (n : VideoTextureNode) (w : World)
    (h : Host) (item : QSizeF) (hcfg : cfg.vulkan = true) (hapi : h.graphicsApi = .VulkanRhi)
    (halive : h.playerAlive = true) (hnew : needsNew n h item = true)
    (hinst : h.vulkanInstanceResource.isSome = true)
    (hphys : h.physicalDeviceResource.isSome = true) (hdev : h.deviceResource.isSome = true) :
    ∃ r, sync cfg n w h item = .ok r ∧
      calls Event.isCreateRenderPass r.2 = calls Event.isCreateRenderPass w + 1 ∧
      calls Event.isCreateImage r.2 = calls Event.isCreateImage w + 1 := by
  obtain ⟨inst, hinst⟩ := Option.isSome_iff_exists.mp hinst
  obtain ⟨physDev, hphys⟩ := Option.isSome_iff_exists.mp hphys
  obtain ⟨dev, hdev⟩ := Option.isSome_iff_exists.mp hdev
  refine ⟨_, sync_vulkan_rebuild cfg n w h item inst physDev dev hcfg hapi halive hnew hinst
    hphys hdev, ?_, ?_⟩
  · rw [wrapAndResize_renderPassCreations, vulkanBody_renderPassCreations]
    exact congrArg (· + 1) (calls_deleteTexture _ _ _ (fun _ => rfl))
  · rw [wrapAndResize_imageCreations, vulkanBody_imageCreations]
    exact congrArg (· + 1) (calls_deleteTexture _ _ _ (fun _ => rfl))

/-! ## Sequences of rebuilding sync calls -/

/-- C5 (amended). On the Vulkan backend, over every sequence of rebuilding
`sync` calls in which the device handle stays the same, `vkCreateRenderPass`
is invoked once per call (as many times as there are calls, not once over the
whole sequence), and the image set is rebuilt on each call (`vkCreateImage` is
invoked once per call). -/
theorem syncAll_vulkan_renderPass_per_call (cfg : BuildConfig) (dev : Handle)
    (cs : List (Host × QSizeF)) (n : VideoTextureNode) (w : World)
    (hcfg : cfg.vulkan = true)
    (hhost : ∀ c ∈ cs, c.1.graphicsApi = .VulkanRhi ∧ c.1.deviceResource = some dev ∧
      c.1.vulkanInstanceResource.isSome = true ∧ c.1.physicalDeviceResource.isSome = true)
    (hall : allRebuild cfg n w cs = true) :
    ∃ r, syncAll cfg n w cs = .ok r ∧
      calls Event.isCreateRenderPass r.2 = calls Event.isCreateRenderPass w + cs.length ∧
      calls Event.isCreateImage r.2 = calls Event.isCreateImage w + cs.length := by
  induction cs generalizing n w with
  | nil => exact ⟨(n, w), rfl, rfl, rfl⟩
  | cons c rest ih =>
    obtain ⟨hapi, hdev, hinst, hphys⟩ := hhost c (List.mem_cons_self _ _)
    simp only [allRebuild, Bool.and_eq_true] at hall
    obtain ⟨⟨hnew, halive⟩, hrest⟩ := hall
    obtain ⟨r, hr, h1, h2⟩ := sync_vulkan_rebuild_counts cfg n w c.1 c.2 hcfg hapi halive hnew
      hinst hphys (by rw [hdev]; rfl)
    rw [hr] at hrest
    obtain ⟨r', hr', h1', h2'⟩ := ih r.1 r.2
      (fun c' hc' => hhost c' (List.mem_cons_of_mem _ hc')) hrest
    refine ⟨r', ?_, ?_, ?_⟩
    · simp only [syncAll, hr]; exact hr'
    · rw [h1', h1, List.length_cons]; omega
    · rw [h2', h2, List.length_cons]; omega
/-! ## Memory-type selection -/

/-- When image creation succeeds, `buildTexture` calls `vkAllocateMemory`, and
only with the index chosen by the loop. -/
theorem buildTexture_allocates_with_selected (n : VideoTextureNode) (w : World) (vk : VkAnswers)
    (size : QSize) (himg : vk.createImage = 0) :
    (∃ res mem, Event.vkAllocateMemory (selectMemIndex vk.memoryTypeBits vk.memoryTypeCount)
        res mem ∈ since w (buildTexture n w vk size).2.2) ∧
    ∀ idx res mem, Event.vkAllocateMemory idx res mem ∈ since w (buildTexture n w vk size).2.2 →
      idx = selectMemIndex vk.memoryTypeBits vk.memoryTypeCount := by
  by_cases h2 : vk.allocateMemory = 0
  · by_cases h3 : vk.bindImageMemory = 0
    · by_cases h4 : vk.createImageView = 0
      · by_cases h5 : vk.createFramebuffer = 0
        · rw [buildTexture_success n w vk size himg h2 h3 h4 h5]
          simp only [since, List.drop_left]
          simp
          intro idx _ _ hidx _ _; exact hidx
        · rw [buildTexture_framebuffer_fail n w vk size himg h2 h3 h4 h5]
          simp only [since, List.drop_left]
          simp
          intro idx _ _ hidx _ _; exact hidx
      · rw [buildTexture_view_fail n w vk size himg h2 h3 h4]
        simp only [since, List.drop_left]
        simp
        intro idx _ _ hidx _ _; exact hidx
    · rw [buildTexture_bind_fail n w vk size himg h2 h3]
      simp only [since, List.drop_left]
      simp
      intro idx _ _ hidx _ _; exact hidx
  · rw [buildTexture_alloc_fail n w vk size himg h2]
    simp only [since, List.drop_left]
    simp
    intro idx _ _ hidx _ _; exact hidx

/-- C2 (amended). Whenever some index below `memoryTypeCount` (at most 32, the
Vulkan limit) has its bit set in the requirements mask and image creation
succeeds, the memory-type index that `buildTexture` passes to
`vkAllocateMemory` is the last (highest) index below `memoryTypeCount` whose
bit is set in the mask. -/
theorem buildTexture_memoryType_is_highest (n : VideoTextureNode) (w : World) (vk : VkAnswers)
    (size : QSize) (hcount : vk.memoryTypeCount ≤ 32) (himg : vk.createImage = 0)
    (hex : ∃ i, i < vk.memoryTypeCount ∧ vk.memoryTypeBits.testBit i = true) :
    ∃ j, j < vk.memoryTypeCount ∧ vk.memoryTypeBits.testBit j = true ∧
      (∀ k, k < vk.memoryTypeCount → vk.memoryTypeBits.testBit k = true → k ≤ j) ∧
      (∃ res mem, Event.vkAllocateMemory j res mem ∈ since w (buildTexture n w vk size).2.2) ∧
      ∀ idx res mem, Event.vkAllocateMemory idx res mem ∈ since w (buildTexture n w vk size).2.2 →
        idx = j := by
  have hex' : ∃ i, i < vk.memoryTypeCount ∧ memoryTypeBitSet vk.memoryTypeBits i = true := by
    obtain ⟨i, hi, hset⟩ := hex
    exact ⟨i, hi, by rw [memoryTypeBitSet_iff _ _ (by omega)]; exact hset⟩
  obtain ⟨h1, h2, h3⟩ := selectMemIndex_last vk.memoryTypeBits vk.memoryTypeCount hex'
  obtain ⟨h4, h5⟩ := buildTexture_allocates_with_selected n w vk size himg
  refine ⟨selectMemIndex vk.memoryTypeBits vk.memoryTypeCount, h1, ?_, ?_, h4, h5⟩
  · rw [← memoryTypeBitSet_iff _ _ (by omega)]; exact h2
  · intro k hk hset
    exact h3 k hk (by rw [memoryTypeBitSet_iff _ _ (by omega)]; exact hset)

/-- Witness for `buildTexture_memoryType_is_highest`: mask `0b11`, two types. -/
theorem buildTexture_memoryType_is_highest_witness :
    vkTwoTypes.memoryTypeCount ≤ 32 ∧ vkTwoTypes.createImage = 0 ∧
    (∃ i, i < vkTwoTypes.memoryTypeCount ∧ vkTwoTypes.memoryTypeBits.testBit i = true) ∧
    ∃ j, j < vkTwoTypes.memoryTypeCount ∧ vkTwoTypes.memoryTypeBits.testBit j = true ∧
      (∀ k, k < vkTwoTypes.memoryTypeCount → vkTwoTypes.memoryTypeBits.testBit k = true → k ≤ j) ∧
      (∃ res mem, Event.vkAllocateMemory j res mem ∈
        since world0 (buildTexture VideoTextureNode.init world0 vkTwoTypes ⟨800, 600⟩).2.2) ∧
      ∀ idx res mem, Event.vkAllocateMemory idx res mem ∈
        since world0 (buildTexture VideoTextureNode.init world0 vkTwoTypes ⟨800, 600⟩).2.2 →
        idx = j :=
  ⟨by decide, by decide, ⟨0, by decide, by decide⟩,
    buildTexture_memoryType_is_highest VideoTextureNode.init world0 vkTwoTypes ⟨800, 600⟩
      (by decide) (by decide) ⟨0, by decide, by decide⟩⟩

/-- C2 as stated fails: with requirements mask `0b11` and two memory types, the
lowest index whose bit is set is 0, but `buildTexture` passes index 1 to
`vkAllocateMemory`. -/
theorem buildTexture_memoryType_not_lowest :
    vkTwoTypes.memoryTypeBits.testBit 0 = true ∧ 0 < vkTwoTypes.memoryTypeCount ∧
    since world0 (buildTexture VideoTextureNode.init world0 vkTwoTypes ⟨800, 600⟩).2.2 =
      [Event.vkCreateImage 800 600 0 1, Event.vkAllocateMemory 1 0 2,
       Event.vkBindImageMemory 1 2 0, Event.vkCreateImageView 1 0 3,
       Event.vkCreateFramebuffer 0 3 800 600 0 4] := by
  decide
/-! ## Failure of a creation step -/

theorem freeTexture_image_null (n : VideoTextureNode) (w : World) :
    (freeTexture n w).1.m_texture_vk = 0 := by
  unfold freeTexture
  split_ifs with h
  · rfl
  · simpa using h

theorem buildTexture_image (n : VideoTextureNode) (w : World) (vk : VkAnswers) (size : QSize) :
    (buildTexture n w vk size).2.1.m_texture_vk =
      if vk.createImage = 0 then w.nextHandle + 1 else n.m_texture_vk := by
  unfold buildTexture
  split_ifs <;> simp_all [World.freshHandle]

theorem buildTexture_texture (n : VideoTextureNode) (w : World) (vk : VkAnswers) (size : QSize) :
    (buildTexture n w vk size).2.1.texture = n.texture := by
  unfold buildTexture
  split_ifs <;> rfl

theorem freeTexture_texture (n : VideoTextureNode) (w : World) :
    (freeTexture n w).1.texture = n.texture := by
  unfold freeTexture
  split_ifs <;> rfl

theorem createRenderPass_texture (n : VideoTextureNode) (w : World) (vk : VkAnswers) :
    (createRenderPass n w vk).2.1.texture = n.texture := by
  unfold createRenderPass
  split_ifs <;> rfl

theorem rebuildImageSet_image (n : VideoTextureNode) (w : World) (vk : VkAnswers) :
    ((rebuildImageSet n w vk).1.m_texture_vk = 0 ↔ vk.createImage ≠ 0) := by
  simp only [rebuildImageSet, buildTexture_image, freeTexture_image_null]
  split_ifs with h
  · simp [h]
  · simp [h]

theorem rebuildImageSet_texture (n : VideoTextureNode) (w : World) (vk : VkAnswers) :
    (rebuildImageSet n w vk).1.texture = n.texture := by
  simp only [rebuildImageSet, buildTexture_texture, freeTexture_texture, createRenderPass_texture]

theorem rebuildImageSet_wraps (n : VideoTextureNode) (w : World) (vk : VkAnswers) :
    calls Event.isWrap (rebuildImageSet n w vk).2 = calls Event.isWrap w := by
  have hb : ∀ (n : VideoTextureNode) (w : World) (size : QSize),
      calls Event.isWrap (buildTexture n w vk size).2.2 = calls Event.isWrap w := by
    intro n w size
    unfold buildTexture
    split_ifs <;> simp [calls_emit, calls_bump, Event.isWrap]
  have hr : calls Event.isWrap (createRenderPass n w vk).2.2 = calls Event.isWrap w := by
    unfold createRenderPass
    split_ifs <;> simp [calls_emit, calls_bump, Event.isWrap]
  simp only [rebuildImageSet]
  rw [hb, calls_freeTexture _ _ _ (fun _ => rfl) (fun _ => rfl) (fun _ => rfl) (fun _ => rfl), hr]

theorem storeSize_texture (n : VideoTextureNode) (h : Host) (item : QSizeF) :
    (storeSize n h item).texture = n.texture := by
  simp only [storeSize]
  split_ifs <;> rfl

theorem wrapAndResize_null (h : Host) (s : SwitchState) (hnull : s.nativeObj = 0) :
    (wrapAndResize h s).1 = s.node ∧
      calls Event.isWrap (wrapAndResize h s).2 = calls Event.isWrap s.world := by
  simp [wrapAndResize, hnull, calls_emit, Event.isWrap]

theorem wrapAndResize_nonnull (h : Host) (s : SwitchState) (hobj : s.nativeObj ≠ 0) :
    (wrapAndResize h s).1.m_texture_vk = s.node.m_texture_vk ∧
      (wrapAndResize h s).1.m_size = s.node.m_size ∧
      calls Event.isWrap (wrapAndResize h s).2 = calls Event.isWrap s.world + 1 ∧
      Event.createTextureFromNativeObject s.nativeObj s.nativeLayout s.node.m_size
        (wrapAndResize h s).1.texture ∈ (wrapAndResize h s).2.trace := by
  unfold wrapAndResize
  rw [if_pos hobj]
  cases h.wrapperOk <;> simp [calls_emit, calls_bump, Event.isWrap, trace_emit]

/-- What a failed creation step leaves behind.  (a) From a null image set, if
any of the five creation steps of `buildTexture` returns a non-success result,
`buildTexture` returns false; when the failing step is the image creation the
four handles are all null afterwards, and when image creation succeeds and a
later step fails the image handle stays set and the framebuffer handle is
null.  (b) A rebuilding `sync` on the Vulkan backend creates a texture wrapper
exactly when the image handle is not null after `buildTexture`, that is,
exactly when image creation succeeded, whatever the later steps returned. -/
theorem vulkan_build_failure (n0 : VideoTextureNode) (w0 : World) (vk : VkAnswers) (size : QSize)
    (cfg : BuildConfig) (n : VideoTextureNode) (w : World) (h : Host) (item : QSizeF)
    (hnull : n0.imageSetNull)
    (hfail : vk.createImage ≠ 0 ∨ vk.allocateMemory ≠ 0 ∨ vk.bindImageMemory ≠ 0 ∨
      vk.createImageView ≠ 0 ∨ vk.createFramebuffer ≠ 0)
    (hcfg : cfg.vulkan = true) (hapi : h.graphicsApi = .VulkanRhi)
    (halive : h.playerAlive = true) (hnew : needsNew n h item = true)
    (hinst : h.vulkanInstanceResource.isSome = true)
    (hphys : h.physicalDeviceResource.isSome = true) (hdev : h.deviceResource.isSome = true) :
    ((buildTexture n0 w0 vk size).1 = false ∧
      (vk.createImage ≠ 0 → (buildTexture n0 w0 vk size).2.1.imageSetNull) ∧
      (vk.createImage = 0 → (buildTexture n0 w0 vk size).2.1.m_texture_vk ≠ 0 ∧
        (buildTexture n0 w0 vk size).2.1.m_textureFramebuffer = 0)) ∧
    ∃ r, sync cfg n w h item = .ok r ∧
      (h.vk.createImage ≠ 0 → r.1.m_texture_vk = 0 ∧ r.1.texture = n.texture ∧
        calls Event.isWrap r.2 = calls Event.isWrap w) ∧
      (h.vk.createImage = 0 → r.1.m_texture_vk ≠ 0 ∧
        calls Event.isWrap r.2 = calls Event.isWrap w + 1 ∧
        Event.createTextureFromNativeObject r.1.m_texture_vk
          VK_IMAGE_LAYOUT_SHADER_READ_ONLY_OPTIMAL r.1.m_size r.1.texture ∈ r.2.trace) := by
  constructor
  · obtain ⟨g1, g2, g3, g4⟩ := hnull
    by_cases h1 : vk.createImage = 0
    · by_cases h2 : vk.allocateMemory = 0
      · by_cases h3 : vk.bindImageMemory = 0
        · by_cases h4 : vk.createImageView = 0
          · by_cases h5 : vk.createFramebuffer = 0
            · simp [h1, h2, h3, h4, h5] at hfail
            · rw [buildTexture_framebuffer_fail n0 w0 vk size h1 h2 h3 h4 h5]
              simp [h1, g4]
          · rw [buildTexture_view_fail n0 w0 vk size h1 h2 h3 h4]
            simp [h1, g4]
        · rw [buildTexture_bind_fail n0 w0 vk size h1 h2 h3]
          simp [h1, g4]
      · rw [buildTexture_alloc_fail n0 w0 vk size h1 h2]
        simp [h1, g4]
    · rw [buildTexture_image_fail n0 w0 vk size h1]
      simp [h1, VideoTextureNode.imageSetNull, g1, g2, g3, g4]
  · obtain ⟨inst, hinst⟩ := Option.isSome_iff_exists.mp hinst
    obtain ⟨physDev, hphys⟩ := Option.isSome_iff_exists.mp hphys
    obtain ⟨dev, hdev⟩ := Option.isSome_iff_exists.mp hdev
    refine ⟨_, sync_vulkan_rebuild cfg n w h item inst physDev dev hcfg hapi halive hnew hinst
      hphys hdev, ?_, ?_⟩
    · intro himg
      have hobj : (vulkanBody h ⟨storeSize n h item, deleteTexture (storeSize n h item) w, 0, 0⟩
          inst physDev dev).nativeObj = 0 := by
        simp only [vulkanBody]
        exact (rebuildImageSet_image _ _ _).2 himg
      obtain ⟨e1, e2⟩ := wrapAndResize_null h _ hobj
      rw [e1, e2]
      refine ⟨hobj, ?_, ?_⟩
      · simp only [vulkanBody, rebuildImageSet_texture, storeSize_texture]
      · simp only [vulkanBody, calls_emit, Event.isWrap, rebuildImageSet_wraps]
        simpa using calls_deleteTexture _ _ _ (fun _ => rfl)
    · intro himg
      have hobj : (vulkanBody h ⟨storeSize n h item, deleteTexture (storeSize n h item) w, 0, 0⟩
          inst physDev dev).nativeObj ≠ 0 := by
        simp only [vulkanBody]
        intro hz
        exact (rebuildImageSet_image _ _ _).1 hz himg
      obtain ⟨e1, e4, e2, e3⟩ := wrapAndResize_nonnull h _ hobj
      refine ⟨?_, ?_, ?_⟩
      · rw [e1]; exact hobj
      · rw [e2]
        simp only [vulkanBody, calls_emit, Event.isWrap, rebuildImageSet_wraps]
        simpa using calls_deleteTexture _ _ _ (fun _ => rfl)
      · rw [e1, e4]; exact e3
/-! ## The sync / render cycle: theorems -/

/-- C1 (code defect). With an integral effective size (800 x 600 at scale 1)
the second of two identical `sync` calls does nothing.  With an item of
101 x 100 at scale factor 1.5 (effective size 151.5 x 150, stored rounded as
152 x 150) the second identical call rebuilds everything again: it deletes the
texture, allocates a new framebuffer object, calls `setRenderAPI` and creates
a new texture wrapper. -/
theorem sync_twice_fractional_size_rebuilds_twice :
    traceOf (syncAll cfgAll VideoTextureNode.init world0 [integralCall]) =
      some [Event.glCreateFramebuffer 800 600 1 2, Event.setRenderAPI (RenderAPI.gl 1),
        Event.scale 1 (-1), Event.createTextureFromNativeObject 2 0 ⟨800, 600⟩ 3,
        Event.setVideoSurfaceSize 800 600] ∧
    traceOf (syncAll cfgAll VideoTextureNode.init world0 [integralCall, integralCall]) =
      traceOf (syncAll cfgAll VideoTextureNode.init world0 [integralCall]) ∧
    traceOf (syncAll cfgAll VideoTextureNode.init world0 [fractionalCall]) =
      some [Event.glCreateFramebuffer 152 150 1 2, Event.setRenderAPI (RenderAPI.gl 1),
        Event.scale 1 (-1), Event.createTextureFromNativeObject 2 0 ⟨152, 150⟩ 3,
        Event.setVideoSurfaceSize 152 150] ∧
    traceOf (syncAll cfgAll VideoTextureNode.init world0 [fractionalCall, fractionalCall]) =
      some [Event.glCreateFramebuffer 152 150 1 2, Event.setRenderAPI (RenderAPI.gl 1),
        Event.scale 1 (-1), Event.createTextureFromNativeObject 2 0 ⟨152, 150⟩ 3,
        Event.setVideoSurfaceSize 152 150,
        Event.deleteTexture 3, Event.glCreateFramebuffer 152 150 4 5,
        Event.glDeleteFramebuffer 1, Event.setRenderAPI (RenderAPI.gl 4), Event.scale 1 (-1),
        Event.createTextureFromNativeObject 5 0 ⟨152, 150⟩ 6,
        Event.setVideoSurfaceSize 152 150] := by
  decide

/-- C7 (code defect). With Metal as the active backend and both the Metal and
the Vulkan blocks compiled in, a rebuilding `sync` runs the Metal case and
then the Vulkan case: when the host hands out Vulkan resources it creates a
render pass and an image set and calls `setRenderAPI` a second time with a
Vulkan binding, and wraps the Vulkan image instead of the Metal texture; when
the Vulkan resources are null (as under a Metal scene graph) it dereferences a
null pointer. -/
theorem sync_metal_runs_vulkan_case :
    traceOf (sync cfgAll VideoTextureNode.init world0 (hostOk .MetalRhi dpr1) (itemSize 800 600)) =
      some [Event.mtlNewTexture 800 600 1, Event.setRenderAPI (RenderAPI.metal 1 1000 1003),
        Event.vkCreateRenderPass 0 2, Event.vkCreateImage 800 600 0 3,
        Event.vkAllocateMemory 1 0 4, Event.vkBindImageMemory 3 4 0,
        Event.vkCreateImageView 3 0 5, Event.vkCreateFramebuffer 2 5 800 600 0 6,
        Event.setRenderAPI (RenderAPI.vulkan 1001 1000 1002 2),
        Event.createTextureFromNativeObject 3 5 ⟨800, 600⟩ 7,
        Event.setVideoSurfaceSize 800 600] ∧
    faultOf (sync cfgAll VideoTextureNode.init world0 hostMetal (itemSize 800 600)) =
      some Fault.nullDeref := by
  decide

/-- C9. With the player expired `render` calls nothing and leaves the node and
the environment as they were; with the player alive it leaves the node as it
was and makes exactly one call, `renderVideo`. -/
theorem render_draws_iff_player_alive (n : VideoTextureNode) (w : World) :
    render n w false = (n, w) ∧
    (render n w true).1 = n ∧ since w (render n w true).2 = [Event.renderVideo] := by
  refine ⟨rfl, rfl, ?_⟩
  exact since_append _ _ _ rfl

/-- C10 (amended). For every `updatePaintNode` call in which no node exists
yet (the `node` argument is null) and the item's width or height is <= 0, the
call returns a null node and changes nothing: no node is created, `sync` is
not run and no call is made to the environment. -/
theorem updatePaintNode_zero_area_without_node (cfg : BuildConfig) (item : VideoTextureItem)
    (heap : List VideoTextureNode) (w : World) (h : Host)
    (hzero : QReal.le item.width (QReal.ofInt 0) = true ∨
      QReal.le item.height (QReal.ofInt 0) = true) :
    updatePaintNode cfg item heap w h 0 = .ok ⟨item, heap, w, 0⟩ := by
  unfold updatePaintNode
  rw [if_pos ⟨rfl, hzero⟩]

/-- Witness for `updatePaintNode_zero_area_without_node`: an item of 0 x 0. -/
theorem updatePaintNode_zero_area_without_node_witness :
    (QReal.le itemZero.width (QReal.ofInt 0) = true ∨
      QReal.le itemZero.height (QReal.ofInt 0) = true) ∧
    updatePaintNode cfgAll itemZero [] world0 (hostOk .OpenGL dpr1) 0 =
      .ok ⟨itemZero, [], world0, 0⟩ :=
  ⟨Or.inl (by decide),
    updatePaintNode_zero_area_without_node cfgAll itemZero [] world0 (hostOk .OpenGL dpr1)
      (Or.inl (by decide))⟩

/-- C10 as stated fails: when the node already exists and the item shrinks to
0 x 0, `updatePaintNode` runs `sync`, which rebuilds the surface at size
0 x 0, and returns the (non-null) node. -/
theorem updatePaintNode_zero_area_with_node_syncs :
    returnedNode zeroAreaRepaint = some 1 ∧
    paintTrace zeroAreaRepaint =
      some [Event.connectBeforeRendering 1, Event.connectScreenChanged 1,
        Event.glCreateFramebuffer 800 600 1 2, Event.setRenderAPI (RenderAPI.gl 1),
        Event.scale 1 (-1), Event.createTextureFromNativeObject 2 0 ⟨800, 600⟩ 3,
        Event.setVideoSurfaceSize 800 600, Event.setTextureCoordinatesTransform 1,
        Event.setFiltering 1, Event.setRect 1 (QReal.ofInt 800) (QReal.ofInt 600),
        Event.windowUpdate,
        Event.deleteTexture 3, Event.glCreateFramebuffer 0 0 4 5, Event.glDeleteFramebuffer 1,
        Event.setRenderAPI (RenderAPI.gl 4), Event.scale 1 (-1),
        Event.createTextureFromNativeObject 5 0 ⟨0, 0⟩ 6, Event.setVideoSurfaceSize 0 0,
        Event.setTextureCoordinatesTransform 1, Event.setFiltering 1,
        Event.setRect 1 (QReal.ofInt 0) (QReal.ofInt 0), Event.windowUpdate] := by
  decide
/-! ## Witnesses and counterexamples for the Vulkan claims -/

/-- Witness for `freeTexture_teardown_order`: a build of 800 x 600 on which
every step succeeds. -/
theorem freeTexture_teardown_order_witness :
    (buildTexture VideoTextureNode.init world0 vkTwoTypes ⟨800, 600⟩).1 = true ∧
    since (buildTexture VideoTextureNode.init world0 vkTwoTypes ⟨800, 600⟩).2.2
        (freeTexture (buildTexture VideoTextureNode.init world0 vkTwoTypes ⟨800, 600⟩).2.1
          (buildTexture VideoTextureNode.init world0 vkTwoTypes ⟨800, 600⟩).2.2).2 =
      [Event.vkDestroyFramebuffer 4, Event.vkFreeMemory 2, Event.vkDestroyImageView 3,
       Event.vkDestroyImage 1] :=
  ⟨by decide,
    (freeTexture_teardown_order VideoTextureNode.init world0 vkTwoTypes ⟨800, 600⟩
      (by decide)).1⟩

/-- Witness for `buildThenFree_leaks_nothing`: memory allocation fails after
the image was created; the image is the one object created and destroyed. -/
theorem buildThenFree_leaks_nothing_witness :
    VideoTextureNode.init.imageSetNull ∧
    ((since world0 (buildThenFree VideoTextureNode.init world0 vkAllocFails ⟨800, 600⟩).2).filterMap
      Event.created).Nodup ∧
    List.Perm
      ((since world0 (buildThenFree VideoTextureNode.init world0 vkAllocFails ⟨800, 600⟩).2).filterMap
        Event.destroyed)
      ((since world0 (buildThenFree VideoTextureNode.init world0 vkAllocFails ⟨800, 600⟩).2).filterMap
        Event.created) ∧
    (buildThenFree VideoTextureNode.init world0 vkAllocFails ⟨800, 600⟩).1.imageSetNull :=
  ⟨by decide,
    buildThenFree_leaks_nothing VideoTextureNode.init world0 vkAllocFails ⟨800, 600⟩ (by decide)⟩

/-- C4 (code defect). When `vkAllocateMemory` fails after `vkCreateImage`
succeeded, `buildTexture` returns false but the image handle stays set (1, not
null); `sync` does not look at the returned value, finds a non-null native
object and wraps the memory-less image in a texture.  A following identical
`sync` on a device where every step succeeds makes no call at all, so the
build is not retried.  When it is `vkCreateImage` that fails, the same code
wraps nothing. -/
theorem sync_wraps_image_after_alloc_failure :
    buildTexture VideoTextureNode.init world0 vkAllocFails ⟨800, 600⟩ =
      (false, { VideoTextureNode.init with m_texture_vk := 1 },
        ⟨[Event.vkCreateImage 800 600 0 1, Event.vkAllocateMemory 1 (-2) 0], 1⟩) ∧
    traceOf (syncAll cfgAll VideoTextureNode.init world0 [allocFailureCall]) =
      some [Event.vkCreateRenderPass 0 1, Event.vkCreateImage 800 600 0 2,
        Event.vkAllocateMemory 1 (-2) 0, Event.setRenderAPI (RenderAPI.vulkan 1001 1000 1002 1),
        Event.createTextureFromNativeObject 2 5 ⟨800, 600⟩ 3,
        Event.setVideoSurfaceSize 800 600] ∧
    traceOf (syncAll cfgAll VideoTextureNode.init world0 [allocFailureCall, healthyVulkanCall]) =
      traceOf (syncAll cfgAll VideoTextureNode.init world0 [allocFailureCall]) ∧
    traceOf (sync cfgAll VideoTextureNode.init world0 hostVkImageFails (itemSize 800 600)) =
      some [Event.vkCreateRenderPass 0 1, Event.vkCreateImage 800 600 (-2) 0,
        Event.setRenderAPI (RenderAPI.vulkan 1001 1000 1002 1),
        Event.setVideoSurfaceSize 800 600] := by
  decide

/-- Witness for `syncAll_vulkan_renderPass_per_call`: a resize from 800 x 600
to 400 x 300. -/
theorem syncAll_vulkan_renderPass_per_call_witness :
    cfgAll.vulkan = true ∧
    (∀ c ∈ vulkanResize, c.1.graphicsApi = .VulkanRhi ∧ c.1.deviceResource = some 1000 ∧
      c.1.vulkanInstanceResource.isSome = true ∧ c.1.physicalDeviceResource.isSome = true) ∧
    allRebuild cfgAll VideoTextureNode.init world0 vulkanResize = true ∧
    ∃ r, syncAll cfgAll VideoTextureNode.init world0 vulkanResize = .ok r ∧
      calls Event.isCreateRenderPass r.2 = calls Event.isCreateRenderPass world0 + vulkanResize.length ∧
      calls Event.isCreateImage r.2 = calls Event.isCreateImage world0 + vulkanResize.length :=
  ⟨by decide, by decide, by decide,
    syncAll_vulkan_renderPass_per_call cfgAll 1000 vulkanResize VideoTextureNode.init world0
      (by decide) (by decide) (by decide)⟩

/-- C5 as stated fails: over a resize from 800 x 600 to 400 x 300 with the same
device handle, both calls rebuild and `vkCreateRenderPass` is invoked twice
(render passes 1 and 7), not once. -/
theorem renderPass_created_on_every_rebuild :
    allRebuild cfgAll VideoTextureNode.init world0 vulkanResize = true ∧
    traceOf (syncAll cfgAll VideoTextureNode.init world0 vulkanResize) =
      some [Event.vkCreateRenderPass 0 1, Event.vkCreateImage 800 600 0 2,
        Event.vkAllocateMemory 1 0 3, Event.vkBindImageMemory 2 3 0,
        Event.vkCreateImageView 2 0 4, Event.vkCreateFramebuffer 1 4 800 600 0 5,
        Event.setRenderAPI (RenderAPI.vulkan 1001 1000 1002 1),
        Event.createTextureFromNativeObject 2 5 ⟨800, 600⟩ 6,
        Event.setVideoSurfaceSize 800 600, Event.deleteTexture 6,
        Event.vkCreateRenderPass 0 7, Event.vkDestroyFramebuffer 5, Event.vkFreeMemory 3,
        Event.vkDestroyImageView 4, Event.vkDestroyImage 2, Event.vkCreateImage 400 300 0 8,
        Event.vkAllocateMemory 1 0 9, Event.vkBindImageMemory 8 9 0,
        Event.vkCreateImageView 8 0 10, Event.vkCreateFramebuffer 7 10 400 300 0 11,
        Event.setRenderAPI (RenderAPI.vulkan 1001 1000 1002 7),
        Event.createTextureFromNativeObject 8 5 ⟨400, 300⟩ 12,
        Event.setVideoSurfaceSize 400 300] := by
  decide

end VideoTexture
